import Mathlib

/-!
Verification of the satellite-sim-interface client (`src/app/page.tsx`).

The page component opens a WebSocket to a satellite telemetry feed,
classifies each incoming JSON message as a connection-status message or a
satellite position update, normalizes the altitude field, keeps a
`Map<number, SatelliteData>` of the latest position per NORAD id, and
reconnects with a fixed 3-second delay when the connection drops.

We give a shallow embedding: JavaScript runtime values are `JsValue`
(rationals stand in for finite doubles, with an explicit `nan`), a decoded
JSON object is an association list of fields, the component's React state
is `AppState`, and the closure state of the `useEffect` body (`ws`,
`reconnectTimeout`, `isMounted`, plus the set of live `setTimeout` timers)
is `SysState`.  Every event handler from the source becomes a function on
`SysState`, and `step` dispatches one delivered event, so a browser session
is a fold of `step` over a list of events.
-/

/-- A JavaScript runtime value as it occurs in this client's data paths:
`undef` is `undefined` (a missing field), `nan` is the IEEE NaN produced by a
failed `parseFloat`, `num q` is a finite number (modelled exactly as a
rational), `str` is a string.  Equality of `JsValue` follows the
SameValueZero convention used by `Map` keys (so `nan = nan`). -/
inductive JsValue where
  | undef : JsValue
  | nan : JsValue
  | num : ℚ → JsValue
  | str : String → JsValue
deriving DecidableEq, Repr

/-- A decoded JSON object: an association list from field names to values
(JSON.parse never produces `undef` values; a missing key reads as `undef`). -/
abbrev RawMsg := List (String × JsValue)

/-- Field read `msg.k`: the value of the first binding of `k`, or `undefined`. -/
def getField (m : RawMsg) (k : String) : JsValue :=
  match m with
  | [] => .undef
  | (k', v) :: rest => if k' = k then v else getField rest k

/-- The JavaScript `'k' in msg` test: key presence. -/
def hasField (m : RawMsg) (k : String) : Bool :=
  match m with
  | [] => false
  | (k', _) :: rest => k' = k || hasField rest k

/-- `isSatellitePosition` from page.tsx line 21: `'norad' in msg`. -/
def isSatellitePosition (m : RawMsg) : Bool :=
  hasField m "norad"

/-- `isConnectionMessage` from page.tsx line 25:
`'type' in msg && msg.type === 'connection'`. -/
def isConnectionMessage (m : RawMsg) : Bool :=
  hasField m "type" && decide (getField m "type" = JsValue.str "connection")

/-- Value of a list of decimal digit characters (most significant first). -/
def digitsVal (cs : List Char) : Nat :=
  cs.foldl (fun n c => 10 * n + (c.toNat - 48)) 0

/-- Optional leading sign of a numeric literal: `true` means negative. -/
def parseSign : List Char → Bool × List Char
  | '-' :: r => (true, r)
  | '+' :: r => (false, r)
  | cs => (false, cs)

/-- The fractional digits after a leading decimal point, if any. -/
def fracPart : List Char → List Char
  | '.' :: r => r.takeWhile Char.isDigit
  | _ => []

/-- Lexical phase of JavaScript `parseFloat` on sign/decimal forms: skip
leading whitespace, read an optional sign, integer digits and fractional
digits, ignore any trailing junk; `none` when no digits were read (NaN). -/
def parseFloatPieces (cs0 : List Char) : Option (Bool × List Char × List Char) :=
  let cs := (cs0.dropWhile Char.isWhitespace)
  let sc := parseSign cs
  let ipart := sc.2.takeWhile Char.isDigit
  let rest := sc.2.dropWhile Char.isDigit
  let fpart := fracPart rest
  if ipart = [] ∧ fpart = [] then none
  else some (sc.1, ipart, fpart)

/-- Numeric value of the pieces read by `parseFloatPieces`. -/
def piecesVal (p : Bool × List Char × List Char) : ℚ :=
  (if p.1 then (-1 : ℚ) else 1) *
    ((digitsVal p.2.1 : ℚ) + (digitsVal p.2.2 : ℚ) / (10 : ℚ) ^ p.2.2.length)

/-- JavaScript `parseFloat` on sign/decimal forms (no exponent notation,
which this feed never uses): `none` models a NaN result. -/
def parseFloatChars (cs : List Char) : Option ℚ :=
  (parseFloatPieces cs).map piecesVal

/-- JavaScript `String.prototype.replace` with a string pattern: replace the
first occurrence only. -/
def replaceFirstChars (pat repl : List Char) : List Char → List Char
  | [] => []
  | c :: rest =>
    if pat.isPrefixOf (c :: rest) then repl ++ (c :: rest).drop pat.length
    else c :: replaceFirstChars pat repl rest

/-- JavaScript `String.prototype.trim`: drop whitespace at both ends. -/
def trimChars (cs : List Char) : List Char :=
  ((cs.dropWhile Char.isWhitespace).reverse.dropWhile Char.isWhitespace).reverse

/-- Altitude normalization from page.tsx lines 90-95: a string altitude is
`parseFloat(alt.replace('km', '').trim())` (NaN when unparseable), anything
else (`typeof data.alt !== 'string'`) is used as-is. -/
def normalizeAlt : JsValue → JsValue
  | .str s =>
    match parseFloatChars (trimChars (replaceFirstChars "km".data [] s.data)) with
    | some q => .num q
    | none => .nan
  | v => v

/-- The `SatelliteData` record built at page.tsx lines 97-104.  Fields hold
whatever runtime values the message carried (a field absent from the wire
object is stored as `undefined`); `timestamp` is the `new Date()` insertion
time, modelled as a tick count. -/
structure SatelliteData where
  name : JsValue
  norad : JsValue
  lat : JsValue
  lon : JsValue
  alt : JsValue
  timestamp : Nat
deriving DecidableEq, Repr

/-- The `Map<number, SatelliteData>` store, as an insertion-ordered
association list keyed by `JsValue` (JS `Map` keys compare by SameValueZero). -/
abbrev Store := List (JsValue × SatelliteData)

/-- `Map.prototype.set`: overwrite the binding in place if the key is
present, otherwise append a new binding. -/
def mapSet (k : JsValue) (v : SatelliteData) : Store → Store
  | [] => [(k, v)]
  | (k', v') :: rest => if k' = k then (k, v) :: rest else (k', v') :: mapSet k v rest

/-- `Map.prototype.get`. -/
def storeLookup (k : JsValue) : Store → Option SatelliteData
  | [] => none
  | (k', v) :: rest => if k' = k then some v else storeLookup k rest

/-- Number of records held under key `k`. -/
def countKey (k : JsValue) (m : Store) : Nat :=
  (m.filter (fun p => decide (p.1 = k))).length

/-- The store holds at most one record per key. -/
def nodupKeys (m : Store) : Prop :=
  (m.map Prod.fst).Nodup

instance : DecidablePred nodupKeys := fun m =>
  inferInstanceAs (Decidable ((m.map Prod.fst).Nodup))

/-- The component's React state (page.tsx lines 39-43). -/
structure AppState where
  satellites : Store
  connected : Bool
  connectionStatus : JsValue
  messageCount : Nat
  lastMessageTime : Option Nat
deriving DecidableEq, Repr

/-- A live (scheduled and not yet fired or cancelled) `setTimeout` timer. -/
structure Timer where
  id : Nat
  delay : Nat
deriving DecidableEq, Repr

/-- Closure state of the `useEffect` body (page.tsx lines 45-167) together
with the React state: `isMounted`, the `reconnectTimeout` variable (a timer
handle that may be stale — it is not cleared when its timer fires), the set
of live timers, whether the `ws` variable holds a socket, and whether
cleanup has called `ws.close()`.  `now` is a logical clock ticked once per
delivered event. -/
structure SysState where
  app : AppState
  isMounted : Bool
  timers : List Timer
  nextTimerId : Nat
  reconnectTimeout : Option Nat
  wsExists : Bool
  wsCloseRequested : Bool
  now : Nat
deriving DecidableEq, Repr

/-- The fixed reconnect delay (milliseconds), page.tsx lines 140 and 151. -/
def RECONNECT_DELAY : Nat := 3000

/-- `reconnectTimeout = setTimeout(..., 3000)`: register a fresh live timer
and store its handle in the `reconnectTimeout` variable. -/
def setTimeoutReconnect (s : SysState) : SysState :=
  { s with timers := s.timers ++ [⟨s.nextTimerId, RECONNECT_DELAY⟩],
           reconnectTimeout := some s.nextTimerId,
           nextTimerId := s.nextTimerId + 1 }

/-- `clearTimeout(i)`: the timer with handle `i` is no longer live. -/
def clearTimeoutId (i : Nat) (ts : List Timer) : List Timer :=
  ts.filter (fun t => decide (t.id ≠ i))

/-- The payload of one WebSocket `message` event: either text that
`JSON.parse` rejects, or a decoded object. -/
inductive Payload where
  | malformed : Payload
  | decoded : RawMsg → Payload
deriving DecidableEq, Repr

/-- One event delivered to the `useEffect` closure: a socket `open`,
`message`, `error` or `close` event, the firing of a live reconnect timer
(whose `connect()` call succeeds or throws according to the `Bool`), or the
React cleanup (teardown) call. -/
inductive Event where
  | wsOpen : Event
  | wsMessage : Payload → Event
  | wsError : Event
  | wsClose : Event
  | timerFire : Bool → Event
  | teardown : Event
deriving DecidableEq, Repr

/-- `connect()` (page.tsx lines 50-154), abstracting the construction of the
`WebSocket` object: on success (`ok`) the `ws` variable holds a new socket;
on a constructor throw the catch block (lines 143-153) sets a status string
and — without consulting the existing `reconnectTimeout` — schedules a
retry, when still mounted. -/
def connect (s : SysState) (ok : Bool) : SysState :=
  if ok then { s with wsExists := true }
  else if s.isMounted then
    setTimeoutReconnect
      { s with app := { s.app with
          connectionStatus := .str "Failed to connect - retrying..." } }
  else s

/-- `ws.onopen` (page.tsx lines 54-63): when mounted, mark connected, set
the status text, and clear (and null) any pending reconnect timer. -/
def onopen (s : SysState) : SysState :=
  if s.isMounted then
    let s1 := { s with app := { s.app with
        connected := true, connectionStatus := .str "Connected" } }
    match s1.reconnectTimeout with
    | some i => { s1 with timers := clearTimeoutId i s1.timers, reconnectTimeout := none }
    | none => s1
  else s

/-- `ws.onmessage` (page.tsx lines 65-118): when mounted, bump the message
counter and last-message time; on decode failure stop there (the catch block
only logs); otherwise a connection message sets the status text and returns,
else a message with a `norad` field is written into the store keyed by that
`norad`, and anything else is only logged. -/
def onmessage (s : SysState) (p : Payload) : SysState :=
  if s.isMounted then
    let s1 := { s with app := { s.app with
        messageCount := s.app.messageCount + 1,
        lastMessageTime := some s.now } }
    match p with
    | .malformed => s1
    | .decoded data =>
      if isConnectionMessage data then
        { s1 with app := { s1.app with connectionStatus := getField data "message" } }
      else if isSatellitePosition data then
        let satelliteData : SatelliteData :=
          { name := getField data "name", norad := getField data "norad",
            lat := getField data "lat", lon := getField data "lon",
            alt := normalizeAlt (getField data "alt"), timestamp := s.now }
        { s1 with app := { s1.app with
            satellites := mapSet (getField data "norad") satelliteData s1.app.satellites } }
      else s1
  else s

/-- `ws.onerror` (page.tsx lines 120-125): when mounted, mark disconnected
and set the error status text; nothing else (no scheduling of its own). -/
def onerror (s : SysState) : SysState :=
  if s.isMounted then
    { s with app := { s.app with
        connected := false, connectionStatus := .str "Connection error - retrying..." } }
  else s

/-- `ws.onclose` (page.tsx lines 127-142): when mounted, mark disconnected,
set the status text, and — only if the `reconnectTimeout` variable is null —
schedule a reconnect after the fixed delay. -/
def onclose (s : SysState) : SysState :=
  if s.isMounted then
    let s1 := { s with app := { s.app with
        connected := false, connectionStatus := .str "Disconnected - reconnecting..." } }
    if s1.isMounted ∧ s1.reconnectTimeout = none then setTimeoutReconnect s1 else s1
  else s

/-- A live reconnect timer fires (the callbacks at page.tsx lines 135-140
and 147-151): the timer is spent (but the `reconnectTimeout` variable keeps
the stale handle), and when still mounted `connect()` runs with outcome
`ok`.  With no live timer nothing happens. -/
def fireTimer (s : SysState) (ok : Bool) : SysState :=
  match s.timers with
  | [] => s
  | _ :: rest =>
    let s1 := { s with timers := rest }
    if s1.isMounted then connect s1 ok else s1

/-- The `useEffect` cleanup (page.tsx lines 158-166): clear the liveness
flag, cancel the timer named by `reconnectTimeout` if any, and call
`ws.close()` when a socket exists. -/
def cleanup (s : SysState) : SysState :=
  let s1 := { s with isMounted := false }
  let s2 :=
    match s1.reconnectTimeout with
    | some i => { s1 with timers := clearTimeoutId i s1.timers }
    | none => s1
  if s2.wsExists then { s2 with wsCloseRequested := true } else s2

/-- Deliver one event: the clock ticks, then the matching handler runs. -/
def step (s0 : SysState) (e : Event) : SysState :=
  let s := { s0 with now := s0.now + 1 }
  match e with
  | .wsOpen => onopen s
  | .wsMessage p => onmessage s p
  | .wsError => onerror s
  | .wsClose => onclose s
  | .timerFire ok => fireTimer s ok
  | .teardown => cleanup s

/-- State right after the `useState` initialisers and the `useEffect` body's
local declarations (page.tsx lines 39-48), before `connect()` runs. -/
def initialState : SysState :=
  { app := { satellites := [], connected := false,
             connectionStatus := .str "Disconnected",
             messageCount := 0, lastMessageTime := none },
    isMounted := true, timers := [], nextTimerId := 0, reconnectTimeout := none,
    wsExists := false, wsCloseRequested := false, now := 0 }

/-- A whole session: mount (the initial `connect()` at page.tsx line 156,
with outcome `ok`), then deliver the events of `es` in order. -/
def run (ok : Bool) (es : List Event) : SysState :=
  es.foldl step (connect initialState ok)

/-- A well-formed satellite position message as sent by the feed
(spec section 6): all five fields present, `alt` a number or a string. -/
structure PosMsg where
  name : String
  norad : ℚ
  lat : ℚ
  lon : ℚ
  alt : JsValue
deriving DecidableEq, Repr

/-- The wire object of a position message. -/
def PosMsg.toRaw (m : PosMsg) : RawMsg :=
  [("name", .str m.name), ("norad", .num m.norad), ("lat", .num m.lat),
   ("lon", .num m.lon), ("alt", m.alt)]

/-- The `message` event for a position message. -/
def PosMsg.toEvent (m : PosMsg) : Event :=
  .wsMessage (.decoded m.toRaw)

/-- The records the view renders (page.tsx line 201,
`Array.from(satellites.values())`): every record in the store, in order. -/
def viewList (a : AppState) : List SatelliteData :=
  a.satellites.map Prod.snd

/-- The timer-bookkeeping invariant of the closure: at most one live timer,
and every live timer is the one named by the `reconnectTimeout` variable and
carries the fixed 3-second delay. -/
def TimerInv (s : SysState) : Prop :=
  s.timers.length ≤ 1 ∧
    ∀ t ∈ s.timers, s.reconnectTimeout = some t.id ∧ t.delay = RECONNECT_DELAY

theorem storeLookup_mapSet (k : JsValue) (v : SatelliteData) (m : Store) :
    storeLookup k (mapSet k v m) = some v := by
  induction m with
  | nil => simp [mapSet, storeLookup]
  | cons p rest ih =>
    obtain ⟨k', v'⟩ := p
    by_cases h : k' = k
    · simp [mapSet, storeLookup, h]
    · simp [mapSet, storeLookup, h, ih]

theorem mapSet_keys (k : JsValue) (v : SatelliteData) (m : Store) :
    (mapSet k v m).map Prod.fst =
      if k ∈ m.map Prod.fst then m.map Prod.fst else m.map Prod.fst ++ [k] := by
  induction m with
  | nil => simp [mapSet]
  | cons p rest ih =>
    obtain ⟨k', v'⟩ := p
    by_cases h : k' = k
    · simp [mapSet, h]
    · have h' : ¬ k = k' := fun hk => h hk.symm
      simp [mapSet, h, h', ih]
      by_cases hm : k ∈ rest.map Prod.fst <;> simp [hm, h']

theorem nodupKeys_mapSet (k : JsValue) (v : SatelliteData) (m : Store)
    (h : nodupKeys m) : nodupKeys (mapSet k v m) := by
  unfold nodupKeys at h ⊢
  rw [mapSet_keys]
  by_cases hm : k ∈ m.map Prod.fst
  · simpa [hm] using h
  · simp [hm, List.nodup_append, h]

theorem countKey_eq_zero (k : JsValue) (m : Store) (h : k ∉ m.map Prod.fst) :
    countKey k m = 0 := by
  induction m with
  | nil => simp [countKey]
  | cons p rest ih =>
    simp only [List.map_cons, List.mem_cons] at h
    push_neg at h
    have h1 : ¬ p.1 = k := fun hk => h.1 hk.symm
    simpa [countKey, h1] using ih h.2

theorem countKey_mapSet (k : JsValue) (v : SatelliteData) (m : Store)
    (h : nodupKeys m) : countKey k (mapSet k v m) = 1 := by
  induction m with
  | nil => simp [mapSet, countKey]
  | cons p rest ih =>
    obtain ⟨k', v'⟩ := p
    unfold nodupKeys at h
    simp only [List.map_cons, List.nodup_cons] at h
    by_cases hk : k' = k
    · subst hk
      have h0 : countKey k' rest = 0 := countKey_eq_zero k' rest h.1
      simp only [countKey] at h0 ⊢
      simp [mapSet, h0]
    · have : nodupKeys rest := h.2
      have h1 : ¬ k = k' := fun hkk => hk hkk.symm
      simp only [countKey] at ih ⊢
      simp [mapSet, hk, h1, ih this]

theorem isConnectionMessage_toRaw (m : PosMsg) :
    isConnectionMessage m.toRaw = false := by
  simp [isConnectionMessage, PosMsg.toRaw, hasField]

theorem isSatellitePosition_toRaw (m : PosMsg) :
    isSatellitePosition m.toRaw = true := by
  simp [isSatellitePosition, PosMsg.toRaw, hasField]

theorem getField_toRaw_name (m : PosMsg) : getField m.toRaw "name" = .str m.name := by
  simp [getField, PosMsg.toRaw]

theorem getField_toRaw_norad (m : PosMsg) : getField m.toRaw "norad" = .num m.norad := by
  simp [getField, PosMsg.toRaw]

theorem getField_toRaw_lat (m : PosMsg) : getField m.toRaw "lat" = .num m.lat := by
  simp [getField, PosMsg.toRaw]

theorem getField_toRaw_lon (m : PosMsg) : getField m.toRaw "lon" = .num m.lon := by
  simp [getField, PosMsg.toRaw]

theorem getField_toRaw_alt (m : PosMsg) : getField m.toRaw "alt" = m.alt := by
  simp [getField, PosMsg.toRaw]

theorem step_posMsg (s : SysState) (m : PosMsg) (hm : s.isMounted = true) :
    step s m.toEvent =
      { s with
        app := { s.app with
          satellites := mapSet (.num m.norad)
            ⟨.str m.name, .num m.norad, .num m.lat, .num m.lon,
             normalizeAlt m.alt, s.now + 1⟩ s.app.satellites,
          messageCount := s.app.messageCount + 1,
          lastMessageTime := some (s.now + 1) },
        now := s.now + 1 } := by
  simp [step, PosMsg.toEvent, onmessage, hm, isConnectionMessage_toRaw,
    isSatellitePosition_toRaw, getField_toRaw_name, getField_toRaw_norad,
    getField_toRaw_lat, getField_toRaw_lon, getField_toRaw_alt]

theorem connect_satellites (s : SysState) (ok : Bool) :
    (connect s ok).app.satellites = s.app.satellites := by
  cases ok with
  | true => simp [connect]
  | false =>
    by_cases hm : s.isMounted = true <;> simp [connect, setTimeoutReconnect, hm]

theorem onopen_satellites (s : SysState) :
    (onopen s).app.satellites = s.app.satellites := by
  by_cases hm : s.isMounted = true
  · cases h : s.reconnectTimeout <;> simp [onopen, hm, h]
  · simp [onopen, hm]

theorem onerror_satellites (s : SysState) :
    (onerror s).app.satellites = s.app.satellites := by
  by_cases hm : s.isMounted = true <;> simp [onerror, hm]

theorem onclose_satellites (s : SysState) :
    (onclose s).app.satellites = s.app.satellites := by
  by_cases hm : s.isMounted = true
  · by_cases hr : s.reconnectTimeout = none <;>
      simp [onclose, setTimeoutReconnect, hm, hr]
  · simp [onclose, hm]

theorem fireTimer_satellites (s : SysState) (ok : Bool) :
    (fireTimer s ok).app.satellites = s.app.satellites := by
  cases h : s.timers with
  | nil => simp [fireTimer, h]
  | cons t rest =>
    by_cases hm : s.isMounted = true
    · simp [fireTimer, h, hm, connect_satellites]
    · simp [fireTimer, h, hm]

theorem cleanup_satellites (s : SysState) :
    (cleanup s).app.satellites = s.app.satellites := by
  cases h : s.reconnectTimeout <;>
    by_cases hw : s.wsExists = true <;> simp [cleanup, h, hw]

theorem nodupKeys_onmessage (s : SysState) (p : Payload)
    (h : nodupKeys s.app.satellites) : nodupKeys (onmessage s p).app.satellites := by
  by_cases hm : s.isMounted = true
  · cases p with
    | malformed => simpa [onmessage, hm] using h
    | decoded data =>
      by_cases hc : isConnectionMessage data = true
      · simpa [onmessage, hm, hc] using h
      · by_cases hs : isSatellitePosition data = true
        · have hmap := nodupKeys_mapSet (getField data "norad")
            ⟨getField data "name", getField data "norad", getField data "lat",
             getField data "lon", normalizeAlt (getField data "alt"), s.now⟩
            s.app.satellites h
          simpa [onmessage, hm, hc, hs] using hmap
        · simpa [onmessage, hm, hc, hs] using h
  · simpa [onmessage, hm] using h

theorem nodupKeys_step (s : SysState) (e : Event)
    (h : nodupKeys s.app.satellites) : nodupKeys (step s e).app.satellites := by
  cases e with
  | wsOpen => simpa [step, onopen_satellites] using h
  | wsMessage p => exact nodupKeys_onmessage _ p h
  | wsError => simpa [step, onerror_satellites] using h
  | wsClose => simpa [step, onclose_satellites] using h
  | timerFire ok => simpa [step, fireTimer_satellites] using h
  | teardown => simpa [step, cleanup_satellites] using h

theorem connect_isMounted (s : SysState) (ok : Bool) :
    (connect s ok).isMounted = s.isMounted := by
  cases ok with
  | true => simp [connect]
  | false =>
    by_cases hm : s.isMounted = true <;> simp [connect, setTimeoutReconnect, hm]

theorem step_isMounted (s : SysState) (e : Event) (he : e ≠ .teardown) :
    (step s e).isMounted = s.isMounted := by
  cases e with
  | wsOpen =>
    by_cases hm : s.isMounted = true
    · cases h : s.reconnectTimeout <;> simp [step, onopen, hm, h]
    · simp [step, onopen, hm]
  | wsMessage p =>
    by_cases hm : s.isMounted = true
    · cases p with
      | malformed => simp [step, onmessage, hm]
      | decoded data =>
        by_cases hc : isConnectionMessage data = true
        · simp [step, onmessage, hm, hc]
        · by_cases hs : isSatellitePosition data = true <;>
            simp [step, onmessage, hm, hc, hs]
    · simp [step, onmessage, hm]
  | wsError => by_cases hm : s.isMounted = true <;> simp [step, onerror, hm]
  | wsClose =>
    by_cases hm : s.isMounted = true
    · by_cases hr : s.reconnectTimeout = none <;>
        simp [step, onclose, setTimeoutReconnect, hm, hr]
    · simp [step, onclose, hm]
  | timerFire ok =>
    cases h : s.timers with
    | nil => simp [step, fireTimer, h]
    | cons t rest =>
      by_cases hm : s.isMounted = true
      · simp [step, fireTimer, h, hm, connect_isMounted]
      · simp [step, fireTimer, h, hm]
  | teardown => exact absurd rfl he

theorem step_error_eq (s : SysState) (hm : s.isMounted = true) :
    step s .wsError =
      { s with
          now := s.now + 1
          app := { s.app with
            connected := false
            connectionStatus := .str "Connection error - retrying..." } } := by
  simp [step, onerror, hm]

theorem step_open_none (s : SysState) (hm : s.isMounted = true)
    (hr : s.reconnectTimeout = none) :
    step s .wsOpen =
      { s with
          now := s.now + 1
          app := { s.app with
            connected := true
            connectionStatus := .str "Connected" } } := by
  simp [step, onopen, hm, hr]

theorem step_open_some (s : SysState) (i : Nat) (hm : s.isMounted = true)
    (hr : s.reconnectTimeout = some i) :
    step s .wsOpen =
      { s with
          now := s.now + 1
          app := { s.app with
            connected := true
            connectionStatus := .str "Connected" }
          timers := clearTimeoutId i s.timers
          reconnectTimeout := none } := by
  simp [step, onopen, hm, hr]

theorem step_close_none (s : SysState) (hm : s.isMounted = true)
    (hr : s.reconnectTimeout = none) :
    step s .wsClose =
      { s with
          now := s.now + 1
          app := { s.app with
            connected := false
            connectionStatus := .str "Disconnected - reconnecting..." }
          timers := s.timers ++ [⟨s.nextTimerId, RECONNECT_DELAY⟩]
          reconnectTimeout := some s.nextTimerId
          nextTimerId := s.nextTimerId + 1 } := by
  simp [step, onclose, setTimeoutReconnect, hm, hr]

theorem step_close_some (s : SysState) (i : Nat) (hm : s.isMounted = true)
    (hr : s.reconnectTimeout = some i) :
    step s .wsClose =
      { s with
          now := s.now + 1
          app := { s.app with
            connected := false
            connectionStatus := .str "Disconnected - reconnecting..." } } := by
  simp [step, onclose, hm, hr]

theorem step_malformed_eq (s : SysState) (hm : s.isMounted = true) :
    step s (.wsMessage .malformed) =
      { s with
          now := s.now + 1
          app := { s.app with
            messageCount := s.app.messageCount + 1
            lastMessageTime := some (s.now + 1) } } := by
  simp [step, onmessage, hm]

theorem step_connMsg_eq (s : SysState) (data : RawMsg) (hm : s.isMounted = true)
    (hc : isConnectionMessage data = true) :
    step s (.wsMessage (.decoded data)) =
      { s with
          now := s.now + 1
          app := { s.app with
            connectionStatus := getField data "message"
            messageCount := s.app.messageCount + 1
            lastMessageTime := some (s.now + 1) } } := by
  simp [step, onmessage, hm, hc]

theorem step_posRaw_eq (s : SysState) (data : RawMsg) (hm : s.isMounted = true)
    (hc : isConnectionMessage data = false) (hs : isSatellitePosition data = true) :
    step s (.wsMessage (.decoded data)) =
      { s with
          now := s.now + 1
          app := { s.app with
            satellites := mapSet (getField data "norad")
              ⟨getField data "name", getField data "norad", getField data "lat",
               getField data "lon", normalizeAlt (getField data "alt"), s.now + 1⟩
              s.app.satellites
            messageCount := s.app.messageCount + 1
            lastMessageTime := some (s.now + 1) } } := by
  simp [step, onmessage, hm, hc, hs]

theorem step_unknown_eq (s : SysState) (data : RawMsg) (hm : s.isMounted = true)
    (hc : isConnectionMessage data = false) (hs : isSatellitePosition data = false) :
    step s (.wsMessage (.decoded data)) =
      { s with
          now := s.now + 1
          app := { s.app with
            messageCount := s.app.messageCount + 1
            lastMessageTime := some (s.now + 1) } } := by
  simp [step, onmessage, hm, hc, hs]

theorem step_fire_nil (s : SysState) (ok : Bool) (ht : s.timers = []) :
    step s (.timerFire ok) = { s with now := s.now + 1 } := by
  simp [step, fireTimer, ht]

theorem step_fire_cons (s : SysState) (ok : Bool) (t : Timer) (rest : List Timer)
    (ht : s.timers = t :: rest) (hm : s.isMounted = true) :
    step s (.timerFire ok) = connect { s with now := s.now + 1, timers := rest } ok := by
  simp [step, fireTimer, ht, hm]

theorem step_teardown_eq (s : SysState) :
    step s .teardown =
      { s with
          now := s.now + 1
          isMounted := false
          timers :=
            match s.reconnectTimeout with
            | some i => clearTimeoutId i s.timers
            | none => s.timers
          wsCloseRequested := s.wsCloseRequested || s.wsExists } := by
  cases hr : s.reconnectTimeout with
  | none =>
    by_cases hw : s.wsExists = true <;>
      simp [step, cleanup, hr, hw, Bool.or_comm]
  | some i =>
    by_cases hw : s.wsExists = true <;>
      simp [step, cleanup, hr, hw, Bool.or_comm]

theorem timerInv_of_nil (s : SysState) (h : s.timers = []) : TimerInv s := by
  constructor
  · simp [h]
  · intro t ht
    rw [h] at ht
    exact absurd ht (List.not_mem_nil t)

theorem timerInv_setTimeout (s : SysState) (h : s.timers = []) :
    TimerInv (setTimeoutReconnect s) := by
  constructor
  · simp [setTimeoutReconnect, h]
  · intro t ht
    simp [setTimeoutReconnect, h] at ht
    simp [setTimeoutReconnect, ht]

theorem timerInv_connect (s : SysState) (ok : Bool) (h : s.timers = []) :
    TimerInv (connect s ok) := by
  cases ok with
  | true => exact timerInv_of_nil _ (by simp [connect, h])
  | false =>
    by_cases hm : s.isMounted = true
    · have hs : TimerInv (setTimeoutReconnect
        { s with app := { s.app with
            connectionStatus := .str "Failed to connect - retrying..." } }) :=
        timerInv_setTimeout _ (by simpa using h)
      simpa [connect, hm] using hs
    · exact timerInv_of_nil _ (by simp [connect, hm, h])

theorem timers_eq_nil_of_reconnect_none (s : SysState) (h : TimerInv s)
    (hr : s.reconnectTimeout = none) : s.timers = [] := by
  cases ht : s.timers with
  | nil => rfl
  | cons t rest =>
    have := (h.2 t (by simp [ht])).1
    rw [hr] at this
    exact absurd this (by simp)

theorem clear_named_timer (s : SysState) (i : Nat) (h : TimerInv s)
    (hr : s.reconnectTimeout = some i) : clearTimeoutId i s.timers = [] := by
  unfold clearTimeoutId
  rw [List.filter_eq_nil_iff]
  intro t ht
  have := (h.2 t ht).1
  rw [hr] at this
  simp [Option.some.inj this]

theorem timerInv_step (s : SysState) (e : Event) (h : TimerInv s) :
    TimerInv (step s e) := by
  by_cases hm : s.isMounted = true
  · cases e with
    | wsOpen =>
      cases hr : s.reconnectTimeout with
      | none =>
        rw [step_open_none s hm hr]
        exact ⟨h.1, fun t ht => h.2 t ht⟩
      | some i =>
        rw [step_open_some s i hm hr]
        exact timerInv_of_nil _ (by simpa using clear_named_timer s i h hr)
    | wsMessage p =>
      cases p with
      | malformed =>
        rw [step_malformed_eq s hm]
        exact ⟨h.1, fun t ht => h.2 t ht⟩
      | decoded data =>
        by_cases hc : isConnectionMessage data = true
        · rw [step_connMsg_eq s data hm hc]
          exact ⟨h.1, fun t ht => h.2 t ht⟩
        · by_cases hsp : isSatellitePosition data = true
          · rw [step_posRaw_eq s data hm (by simpa using hc) hsp]
            exact ⟨h.1, fun t ht => h.2 t ht⟩
          · rw [step_unknown_eq s data hm (by simpa using hc) (by simpa using hsp)]
            exact ⟨h.1, fun t ht => h.2 t ht⟩
    | wsError =>
      rw [step_error_eq s hm]
      exact ⟨h.1, fun t ht => h.2 t ht⟩
    | wsClose =>
      cases hr : s.reconnectTimeout with
      | none =>
        have ht : s.timers = [] := timers_eq_nil_of_reconnect_none s h hr
        rw [step_close_none s hm hr]
        constructor
        · simp [ht]
        · intro t htm
          simp [ht] at htm
          simp [htm]
      | some i =>
        rw [step_close_some s i hm hr]
        exact ⟨h.1, fun t ht => h.2 t ht⟩
    | timerFire ok =>
      cases ht : s.timers with
      | nil =>
        rw [step_fire_nil s ok ht]
        exact timerInv_of_nil _ (by simpa using ht)
      | cons t rest =>
        have hrest : rest = [] := by
          have := h.1
          rw [ht] at this
          simpa using this
        rw [step_fire_cons s ok t rest ht hm]
        exact timerInv_connect _ ok (by simp [hrest])
    | teardown =>
      rw [step_teardown_eq s]
      cases hr : s.reconnectTimeout with
      | none =>
        have ht : s.timers = [] := timers_eq_nil_of_reconnect_none s h hr
        exact timerInv_of_nil _ (by simp [ht])
      | some i =>
        exact timerInv_of_nil _ (by simpa using clear_named_timer s i h hr)
  · have hm' : s.isMounted = false := by simpa using hm
    cases e with
    | wsOpen =>
      have : step s .wsOpen = { s with now := s.now + 1 } := by simp [step, onopen, hm']
      rw [this]
      exact ⟨h.1, fun t ht => h.2 t ht⟩
    | wsMessage p =>
      have : step s (.wsMessage p) = { s with now := s.now + 1 } := by
        simp [step, onmessage, hm']
      rw [this]
      exact ⟨h.1, fun t ht => h.2 t ht⟩
    | wsError =>
      have : step s .wsError = { s with now := s.now + 1 } := by simp [step, onerror, hm']
      rw [this]
      exact ⟨h.1, fun t ht => h.2 t ht⟩
    | wsClose =>
      have : step s .wsClose = { s with now := s.now + 1 } := by simp [step, onclose, hm']
      rw [this]
      exact ⟨h.1, fun t ht => h.2 t ht⟩
    | timerFire ok =>
      cases ht : s.timers with
      | nil =>
        rw [step_fire_nil s ok ht]
        exact timerInv_of_nil _ (by simpa using ht)
      | cons t rest =>
        have hrest : rest = [] := by
          have := h.1
          rw [ht] at this
          simpa using this
        have : step s (.timerFire ok) = { s with now := s.now + 1, timers := rest } := by
          simp [step, fireTimer, ht, hm']
        rw [this]
        exact timerInv_of_nil _ (by simpa using hrest)
    | teardown =>
      rw [step_teardown_eq s]
      cases hr : s.reconnectTimeout with
      | none =>
        have ht : s.timers = [] := timers_eq_nil_of_reconnect_none s h hr
        exact timerInv_of_nil _ (by simp [ht])
      | some i =>
        exact timerInv_of_nil _ (by simpa using clear_named_timer s i h hr)

theorem timerInv_foldl (es : List Event) (s : SysState) (h : TimerInv s) :
    TimerInv (es.foldl step s) := by
  induction es generalizing s with
  | nil => exact h
  | cons e rest ih => exact ih _ (timerInv_step s e h)

theorem timerInv_run (ok : Bool) (es : List Event) : TimerInv (run ok es) :=
  timerInv_foldl es _ (timerInv_connect initialState ok rfl)

theorem nodupKeys_foldl (es : List Event) (s : SysState)
    (h : nodupKeys s.app.satellites) :
    nodupKeys ((es.foldl step s)).app.satellites := by
  induction es generalizing s with
  | nil => exact h
  | cons e rest ih => exact ih _ (nodupKeys_step s e h)

theorem nodupKeys_run (ok : Bool) (es : List Event) :
    nodupKeys (run ok es).app.satellites := by
  refine nodupKeys_foldl es _ ?_
  rw [connect_satellites]
  simp [initialState, nodupKeys]

theorem step_notMounted (s : SysState) (e : Event) (hm : s.isMounted = false) :
    (step s e).app = s.app ∧ (step s e).isMounted = false ∧
      (s.timers = [] → (step s e).timers = []) := by
  cases e with
  | wsOpen => simp [step, onopen, hm]
  | wsMessage p => simp [step, onmessage, hm]
  | wsError => simp [step, onerror, hm]
  | wsClose => simp [step, onclose, hm]
  | timerFire ok =>
    cases ht : s.timers with
    | nil => simp [step, fireTimer, ht, hm]
    | cons t rest => simp [step, fireTimer, ht, hm]
  | teardown =>
    rw [step_teardown_eq]
    cases hr : s.reconnectTimeout with
    | none => simp
    | some i =>
      refine ⟨rfl, rfl, ?_⟩
      intro ht
      simp [ht, clearTimeoutId]

theorem foldl_notMounted (es : List Event) (s : SysState)
    (hm : s.isMounted = false) (ht : s.timers = []) :
    (es.foldl step s).app = s.app ∧ (es.foldl step s).isMounted = false ∧
      (es.foldl step s).timers = [] := by
  induction es generalizing s with
  | nil => exact ⟨rfl, hm, ht⟩
  | cons e rest ih =>
    obtain ⟨ha, hm', htt⟩ := step_notMounted s e hm
    obtain ⟨ha2, hm2, ht2⟩ := ih (step s e) hm' (htt ht)
    exact ⟨ha2.trans ha, hm2, ht2⟩

theorem step_teardown_timers (s : SysState) (h : TimerInv s) :
    (step s .teardown).timers = [] := by
  rw [step_teardown_eq]
  cases hr : s.reconnectTimeout with
  | none => simpa using timers_eq_nil_of_reconnect_none s h hr
  | some i => simpa using clear_named_timer s i h hr

theorem foldl_posMsgs_mounted (msgs : List PosMsg) (s : SysState)
    (hm : s.isMounted = true) :
    ((msgs.map PosMsg.toEvent).foldl step s).isMounted = true := by
  induction msgs generalizing s with
  | nil => exact hm
  | cons m rest ih =>
    have h1 : (step s m.toEvent).isMounted = true := by
      rw [step_isMounted s m.toEvent (by simp [PosMsg.toEvent])]
      exact hm
    simpa using ih (step s m.toEvent) h1

theorem foldl_posMsgs_nodup (msgs : List PosMsg) (s : SysState)
    (hd : nodupKeys s.app.satellites) :
    nodupKeys (((msgs.map PosMsg.toEvent).foldl step s)).app.satellites := by
  induction msgs generalizing s with
  | nil => exact hd
  | cons m rest ih =>
    simpa using ih (step s m.toEvent) (nodupKeys_step s m.toEvent hd)

theorem close_no_reschedule (n : Nat) (s : SysState) (i : Nat)
    (hm : s.isMounted = true) (hr : s.reconnectTimeout = some i)
    (ht : s.timers = []) :
    ((List.replicate n Event.wsClose).foldl step s).timers = []
    ∧ ((List.replicate n Event.wsClose).foldl step s).isMounted = true := by
  induction n generalizing s with
  | zero => exact ⟨ht, hm⟩
  | succ k ih =>
    have h1 := step_close_some s i hm hr
    have hm1 : (step s .wsClose).isMounted = true := by rw [h1]; exact hm
    have hr1 : (step s .wsClose).reconnectTimeout = some i := by rw [h1]; exact hr
    have ht1 : (step s .wsClose).timers = [] := by rw [h1]; exact ht
    have := ih (step s .wsClose) hm1 hr1 ht1
    simpa [List.replicate_succ] using this

/-- C5: altitude normalization.  A numeric altitude is used as-is
(`normalizeAlt (.num q) = .num q` for every `q`); a textual altitude has the
`"km"` suffix and surrounding whitespace stripped and is parsed as a float:
`"550.5km"` normalizes to `550.5 = 1101/2`, and `" 400 km "` to `400`. -/
theorem c5_altitude_normalization :
    normalizeAlt (.str "550.5km") = .num (1101 / 2)
    ∧ (∀ q : ℚ, normalizeAlt (.num q) = .num q)
    ∧ normalizeAlt (.str " 400 km ") = .num 400 := by
  refine ⟨?_, fun q => rfl, ?_⟩
  · have hp : parseFloatPieces (trimChars (replaceFirstChars "km".data [] "550.5km".data))
        = some (false, ['5', '5', '0'], ['5']) := by decide
    have d1 : digitsVal ['5', '5', '0'] = 550 := by decide
    have d2 : digitsVal ['5'] = 5 := by decide
    simp [normalizeAlt, parseFloatChars, hp, piecesVal, d1, d2]
    norm_num
  · have hp : parseFloatPieces (trimChars (replaceFirstChars "km".data [] " 400 km ".data))
        = some (false, ['4', '0', '0'], []) := by decide
    have d1 : digitsVal ['4', '0', '0'] = 400 := by decide
    have d2 : digitsVal ([] : List Char) = 0 := by decide
    simp [normalizeAlt, parseFloatChars, hp, piecesVal, d1, d2]

/-- C6: a message whose payload fails to decode increments the running
message count but leaves the satellite store, the status text and the
connected flag unchanged (the handler catches the parse error; nothing
crashes — the handler is a total function on states). -/
theorem c6_decode_failure_frame (s : SysState) (hm : s.isMounted = true) :
    (step s (.wsMessage .malformed)).app.messageCount = s.app.messageCount + 1
    ∧ (step s (.wsMessage .malformed)).app.satellites = s.app.satellites
    ∧ (step s (.wsMessage .malformed)).app.connectionStatus = s.app.connectionStatus
    ∧ (step s (.wsMessage .malformed)).app.connected = s.app.connected := by
  rw [step_malformed_eq s hm]
  exact ⟨rfl, rfl, rfl, rfl⟩

/-- Witness for C6 at the freshly mounted state. -/
theorem c6_decode_failure_witness :
    (step (run true []) (.wsMessage .malformed)).app.messageCount
        = (run true []).app.messageCount + 1
    ∧ (step (run true []) (.wsMessage .malformed)).app.satellites
        = (run true []).app.satellites
    ∧ (step (run true []) (.wsMessage .malformed)).app.connectionStatus
        = (run true []).app.connectionStatus
    ∧ (step (run true []) (.wsMessage .malformed)).app.connected
        = (run true []).app.connected :=
  c6_decode_failure_frame (run true []) (by decide)

/-- C9: a connection-status message sets the displayed status text to its
`message` field and leaves the satellite store and the `connected` flag
unchanged. -/
theorem c9_connection_msg_status_only (s : SysState) (data : RawMsg)
    (hm : s.isMounted = true) (hc : isConnectionMessage data = true) :
    (step s (.wsMessage (.decoded data))).app.connectionStatus = getField data "message"
    ∧ (step s (.wsMessage (.decoded data))).app.satellites = s.app.satellites
    ∧ (step s (.wsMessage (.decoded data))).app.connected = s.app.connected := by
  rw [step_connMsg_eq s data hm hc]
  exact ⟨rfl, rfl, rfl⟩

/-- Witness for C9: a `status: "connected"` message arriving while the
client is marked disconnected (`connected = false` after mount) does not
flip the connected flag. -/
theorem c9_connection_msg_witness :
    (step (run true [])
        (.wsMessage (.decoded
          [("type", JsValue.str "connection"),
           ("message", JsValue.str "Live telemetry stream established"),
           ("status", JsValue.str "connected")]))).app.connectionStatus
      = JsValue.str "Live telemetry stream established"
    ∧ (step (run true [])
        (.wsMessage (.decoded
          [("type", JsValue.str "connection"),
           ("message", JsValue.str "Live telemetry stream established"),
           ("status", JsValue.str "connected")]))).app.satellites = []
    ∧ (step (run true [])
        (.wsMessage (.decoded
          [("type", JsValue.str "connection"),
           ("message", JsValue.str "Live telemetry stream established"),
           ("status", JsValue.str "connected")]))).app.connected = false := by
  have h := c9_connection_msg_status_only (run true [])
    [("type", JsValue.str "connection"),
     ("message", JsValue.str "Live telemetry stream established"),
     ("status", JsValue.str "connected")] (by decide) (by decide)
  refine ⟨?_, ?_, ?_⟩
  · rw [h.1]; decide
  · rw [h.2.1]; decide
  · rw [h.2.2]; decide

/-- C2 is refuted by the code: the reconnect-timer callback (page.tsx
lines 135-140) never resets the `reconnectTimeout` variable, so after the
trace close → timer fires (a fresh socket is constructed) → that socket
closes before ever opening, the `!reconnectTimeout` guard at line 134 sees
the stale handle and schedules nothing: the component is still mounted with
no live timer, and — as the `List.replicate` conjunct shows — any number of
further close events still schedules nothing, so reconnection stops, against
the spec's indefinite retry loop. -/
theorem c2_reconnect_loop_stalls :
    run true [Event.wsClose, Event.timerFire true, Event.wsClose] =
      { app := { satellites := [], connected := false,
                 connectionStatus := .str "Disconnected - reconnecting...",
                 messageCount := 0, lastMessageTime := none },
        isMounted := true, timers := [], nextTimerId := 1,
        reconnectTimeout := some 0, wsExists := true,
        wsCloseRequested := false, now := 3 }
    ∧ ∀ n : Nat,
        ((List.replicate n Event.wsClose).foldl step
          (run true [Event.wsClose, Event.timerFire true, Event.wsClose])).timers
        = [] := by
  constructor
  · decide
  · intro n
    exact (close_no_reschedule n _ 0 (by decide) (by decide) (by decide)).1

/-- C3: a transport-level error event while mounted marks the connection
disconnected and surfaces the retry status string, touching nothing else (it
is not fatal: the handler is total and changes no other state, and the store,
counter and timers are untouched); the reconnect itself is scheduled by the
close event that follows the error, after the fixed 3-second delay. -/
theorem c3_error_then_close_reschedules (s : SysState) (hm : s.isMounted = true)
    (hr : s.reconnectTimeout = none) :
    (step s .wsError).app.connected = false
    ∧ (step s .wsError).app.connectionStatus = .str "Connection error - retrying..."
    ∧ (step s .wsError).app.satellites = s.app.satellites
    ∧ (step s .wsError).app.messageCount = s.app.messageCount
    ∧ (step s .wsError).timers = s.timers
    ∧ (step s .wsError).reconnectTimeout = s.reconnectTimeout
    ∧ (step s .wsError).isMounted = true
    ∧ (step (step s .wsError) .wsClose).timers
        = s.timers ++ [⟨s.nextTimerId, RECONNECT_DELAY⟩]
    ∧ (step (step s .wsError) .wsClose).reconnectTimeout = some s.nextTimerId := by
  have h1 := step_error_eq s hm
  have hm1 : (step s .wsError).isMounted = true := by rw [h1]; exact hm
  have hr1 : (step s .wsError).reconnectTimeout = none := by rw [h1]; exact hr
  have h2 := step_close_none (step s .wsError) hm1 hr1
  refine ⟨by rw [h1], by rw [h1], by rw [h1], by rw [h1], by rw [h1],
    by rw [h1], hm1, ?_, ?_⟩
  · rw [h2, h1]
  · rw [h2, h1]

/-- Witness for C3 at the freshly mounted state. -/
theorem c3_error_then_close_witness :
    (step (run true []) .wsError).app.connected = false
    ∧ (step (run true []) .wsError).app.connectionStatus
        = .str "Connection error - retrying..."
    ∧ (step (run true []) .wsError).app.satellites = (run true []).app.satellites
    ∧ (step (run true []) .wsError).app.messageCount = (run true []).app.messageCount
    ∧ (step (run true []) .wsError).timers = (run true []).timers
    ∧ (step (run true []) .wsError).reconnectTimeout = (run true []).reconnectTimeout
    ∧ (step (run true []) .wsError).isMounted = true
    ∧ (step (step (run true []) .wsError) .wsClose).timers
        = (run true []).timers ++ [⟨(run true []).nextTimerId, RECONNECT_DELAY⟩]
    ∧ (step (step (run true []) .wsError) .wsClose).reconnectTimeout
        = some (run true []).nextTimerId :=
  c3_error_then_close_reschedules (run true []) (by decide) (by decide)

/-- C4 is refuted by the code: `isConnectionMessage` is tested first
(page.tsx line 81) and returns early, so a decoded message that carries both
`norad` and `type: "connection"` is handled as a status update — the store
stays empty and the status text becomes the message's `message` field —
not as a position update as the claim (giving `norad` priority) requires. -/
theorem c4_norad_priority_counterexample :
    (step (run true [])
        (.wsMessage (.decoded
          [("type", JsValue.str "connection"),
           ("message", JsValue.str "backend ready"),
           ("status", JsValue.str "connected"),
           ("norad", JsValue.num 99),
           ("name", JsValue.str "ISS"),
           ("lat", JsValue.num 10),
           ("lon", JsValue.num 20),
           ("alt", JsValue.num 400)]))).app.satellites = []
    ∧ (step (run true [])
        (.wsMessage (.decoded
          [("type", JsValue.str "connection"),
           ("message", JsValue.str "backend ready"),
           ("status", JsValue.str "connected"),
           ("norad", JsValue.num 99),
           ("name", JsValue.str "ISS"),
           ("lat", JsValue.num 10),
           ("lon", JsValue.num 20),
           ("alt", JsValue.num 400)]))).app.connectionStatus
        = JsValue.str "backend ready" := by
  decide

/-- C4 (amended): message kind is determined by shape with `type:
"connection"` taking effect first: a decoded message whose `type` field is
`"connection"` is handled as a status update even when it also carries
`norad`; a message containing `norad` and not of connection type is handled
as a position update keyed by that `norad`; anything else only bumps the
counters (logged and dropped). -/
theorem c4_classification_by_shape (s : SysState) (data : RawMsg)
    (hm : s.isMounted = true) :
    (isConnectionMessage data = true →
      step s (.wsMessage (.decoded data)) =
        { s with
            now := s.now + 1
            app := { s.app with
              connectionStatus := getField data "message"
              messageCount := s.app.messageCount + 1
              lastMessageTime := some (s.now + 1) } })
    ∧ (isConnectionMessage data = false → isSatellitePosition data = true →
      step s (.wsMessage (.decoded data)) =
        { s with
            now := s.now + 1
            app := { s.app with
              satellites := mapSet (getField data "norad")
                ⟨getField data "name", getField data "norad", getField data "lat",
                 getField data "lon", normalizeAlt (getField data "alt"), s.now + 1⟩
                s.app.satellites
              messageCount := s.app.messageCount + 1
              lastMessageTime := some (s.now + 1) } })
    ∧ (isConnectionMessage data = false → isSatellitePosition data = false →
      step s (.wsMessage (.decoded data)) =
        { s with
            now := s.now + 1
            app := { s.app with
              messageCount := s.app.messageCount + 1
              lastMessageTime := some (s.now + 1) } }) :=
  ⟨fun hc => step_connMsg_eq s data hm hc,
   fun hc hs => step_posRaw_eq s data hm hc hs,
   fun hc hs => step_unknown_eq s data hm hc hs⟩

/-- Witness for the amended C4: the dual-shape message of the
counterexample goes down the status branch. -/
theorem c4_classification_witness :
    step (run true [])
        (.wsMessage (.decoded
          [("type", JsValue.str "connection"),
           ("message", JsValue.str "backend ready"),
           ("status", JsValue.str "connected"),
           ("norad", JsValue.num 99),
           ("name", JsValue.str "ISS"),
           ("lat", JsValue.num 10),
           ("lon", JsValue.num 20),
           ("alt", JsValue.num 400)])) =
      { (run true []) with
          now := (run true []).now + 1
          app := { (run true []).app with
            connectionStatus := getField
              [("type", JsValue.str "connection"),
               ("message", JsValue.str "backend ready"),
               ("status", JsValue.str "connected"),
               ("norad", JsValue.num 99),
               ("name", JsValue.str "ISS"),
               ("lat", JsValue.num 10),
               ("lon", JsValue.num 20),
               ("alt", JsValue.num 400)] "message"
            messageCount := (run true []).app.messageCount + 1
            lastMessageTime := some ((run true []).now + 1) } } :=
  (c4_classification_by_shape (run true []) _ (by decide)).1 (by decide)

/-- C7: in every reachable state there is at most one live reconnect timer,
and every live timer carries the fixed 3-second delay; a close event while
mounted with no reconnect handle schedules exactly one timer (appending one
entry with delay 3000, marking the state disconnected/reconnecting), and a
second close arriving before that timer fires schedules nothing further. -/
theorem c7_at_most_one_pending_timer :
    (∀ (ok : Bool) (es : List Event), (run ok es).timers.length ≤ 1
      ∧ ∀ t ∈ (run ok es).timers, t.delay = RECONNECT_DELAY)
    ∧ (∀ s : SysState, s.isMounted = true → s.reconnectTimeout = none →
        (step s .wsClose).timers = s.timers ++ [⟨s.nextTimerId, RECONNECT_DELAY⟩]
        ∧ (step s .wsClose).app.connected = false
        ∧ (step s .wsClose).app.connectionStatus
            = .str "Disconnected - reconnecting..."
        ∧ (step (step s .wsClose) .wsClose).timers = (step s .wsClose).timers) := by
  constructor
  · intro ok es
    have h := timerInv_run ok es
    exact ⟨h.1, fun t ht => (h.2 t ht).2⟩
  · intro s hm hr
    have h1 := step_close_none s hm hr
    have hm1 : (step s .wsClose).isMounted = true := by rw [h1]; exact hm
    have hr1 : (step s .wsClose).reconnectTimeout = some s.nextTimerId := by rw [h1]
    have h2 := step_close_some (step s .wsClose) s.nextTimerId hm1 hr1
    exact ⟨by rw [h1], by rw [h1], by rw [h1], by rw [h2]⟩

/-- Witness for C7's close-event part at the freshly mounted state. -/
theorem c7_close_schedules_witness :
    (step (run true []) .wsClose).timers
        = (run true []).timers ++ [⟨(run true []).nextTimerId, RECONNECT_DELAY⟩]
    ∧ (step (run true []) .wsClose).app.connected = false
    ∧ (step (run true []) .wsClose).app.connectionStatus
        = .str "Disconnected - reconnecting..."
    ∧ (step (step (run true []) .wsClose) .wsClose).timers
        = (step (run true []) .wsClose).timers :=
  c7_at_most_one_pending_timer.2 (run true []) (by decide) (by decide)

theorem mapSet_mem (k : JsValue) (v : SatelliteData) (m : Store) :
    (k, v) ∈ mapSet k v m := by
  induction m with
  | nil => simp [mapSet]
  | cons p rest ih =>
    obtain ⟨k', v'⟩ := p
    by_cases h : k' = k
    · simp [mapSet, h]
    · simp only [mapSet, h, if_false, List.mem_cons]
      exact Or.inr ih

/-- C1: the store is last-write-wins per NORAD id.  Part one: in every
reachable state the store never holds two records with the same key.  Part
two: after a mounted state processes any sequence of valid position messages
for a given id ending in message `m`, the store holds exactly one record
under key `m.norad`, and its fields are `m`'s normalized fields. -/
theorem c1_last_write_wins :
    (∀ (ok : Bool) (es : List Event), nodupKeys (run ok es).app.satellites)
    ∧ (∀ (s : SysState) (msgs : List PosMsg) (m : PosMsg),
        s.isMounted = true → nodupKeys s.app.satellites →
        (∀ x ∈ msgs, x.norad = m.norad) →
        (∃ ts, storeLookup (.num m.norad)
            (((msgs ++ [m]).map PosMsg.toEvent).foldl step s).app.satellites
          = some ⟨.str m.name, .num m.norad, .num m.lat, .num m.lon,
                  normalizeAlt m.alt, ts⟩)
        ∧ countKey (.num m.norad)
            (((msgs ++ [m]).map PosMsg.toEvent).foldl step s).app.satellites = 1
        ∧ nodupKeys (((msgs ++ [m]).map PosMsg.toEvent).foldl step s).app.satellites) := by
  constructor
  · exact fun ok es => nodupKeys_run ok es
  · intro s msgs m hm hd _hall
    have hsplit : ((msgs ++ [m]).map PosMsg.toEvent).foldl step s
        = step ((msgs.map PosMsg.toEvent).foldl step s) m.toEvent := by
      simp [List.map_append, List.foldl_append]
    have hmmid : ((msgs.map PosMsg.toEvent).foldl step s).isMounted = true :=
      foldl_posMsgs_mounted msgs s hm
    have hdmid : nodupKeys ((msgs.map PosMsg.toEvent).foldl step s).app.satellites :=
      foldl_posMsgs_nodup msgs s hd
    have hstep := step_posMsg ((msgs.map PosMsg.toEvent).foldl step s) m hmmid
    rw [hsplit, hstep]
    refine ⟨⟨((msgs.map PosMsg.toEvent).foldl step s).now + 1, ?_⟩, ?_, ?_⟩
    · exact storeLookup_mapSet _ _ _
    · exact countKey_mapSet _ _ _ hdmid
    · exact nodupKeys_mapSet _ _ _ hdmid

/-- Witness for C1: two messages with the same `norad` and differing `lat`;
the second overwrites the first and the store holds one record for that id. -/
theorem c1_last_write_wins_witness :
    (∃ ts, storeLookup (.num 25544)
        ((([(⟨"ISS", 25544, 10, 20, .num 400⟩ : PosMsg)]
            ++ [(⟨"ISS", 25544, 55, 20, .num 400⟩ : PosMsg)]).map
          PosMsg.toEvent).foldl step (run true [])).app.satellites
      = some ⟨.str "ISS", .num 25544, .num 55, .num 20,
              normalizeAlt (.num 400), ts⟩)
    ∧ countKey (.num 25544)
        ((([(⟨"ISS", 25544, 10, 20, .num 400⟩ : PosMsg)]
            ++ [(⟨"ISS", 25544, 55, 20, .num 400⟩ : PosMsg)]).map
          PosMsg.toEvent).foldl step (run true [])).app.satellites = 1
    ∧ nodupKeys ((([(⟨"ISS", 25544, 10, 20, .num 400⟩ : PosMsg)]
            ++ [(⟨"ISS", 25544, 55, 20, .num 400⟩ : PosMsg)]).map
          PosMsg.toEvent).foldl step (run true [])).app.satellites :=
  c1_last_write_wins.2 (run true []) [⟨"ISS", 25544, 10, 20, .num 400⟩]
    ⟨"ISS", 25544, 55, 20, .num 400⟩ (by decide) (by decide) (by decide)

/-- C8: once the cleanup (teardown) has run, delivering any further events —
in-flight opens, messages, errors, closes, timer firings, even repeated
teardowns — never mutates the store, the counters or the status (the whole
`AppState` stays what it was at teardown), the component stays unmounted, no
reconnect timer is or becomes live (the pending one was cancelled), and
teardown called `close()` on the socket when one existed. -/
theorem c8_teardown_quiescence (ok : Bool) (es es' : List Event) :
    (es'.foldl step (step (run ok es) .teardown)).app = (run ok es).app
    ∧ (es'.foldl step (step (run ok es) .teardown)).isMounted = false
    ∧ (es'.foldl step (step (run ok es) .teardown)).timers = []
    ∧ (step (run ok es) .teardown).wsCloseRequested
        = ((run ok es).wsCloseRequested || (run ok es).wsExists) := by
  have hInv := timerInv_run ok es
  have h1 := step_teardown_eq (run ok es)
  have ht : (step (run ok es) .teardown).timers = [] :=
    step_teardown_timers (run ok es) hInv
  have hm : (step (run ok es) .teardown).isMounted = false := by rw [h1]
  have happ : (step (run ok es) .teardown).app = (run ok es).app := by rw [h1]
  obtain ⟨ha, hm2, ht2⟩ := foldl_notMounted es' _ hm ht
  exact ⟨ha.trans happ, hm2, ht2, by rw [h1]⟩

/-- C10: a position message whose altitude string fails to parse is neither
dropped nor defaulted: the record is still written under its `norad` with the
non-numeric (NaN) altitude, and it appears in the list the view renders. -/
theorem c10_unparseable_alt_kept (s : SysState) (m : PosMsg)
    (hm : s.isMounted = true) (halt : normalizeAlt m.alt = JsValue.nan) :
    storeLookup (.num m.norad) (step s m.toEvent).app.satellites
      = some ⟨.str m.name, .num m.norad, .num m.lat, .num m.lon, .nan, s.now + 1⟩
    ∧ (⟨.str m.name, .num m.norad, .num m.lat, .num m.lon, .nan,
        s.now + 1⟩ : SatelliteData)
        ∈ viewList (step s m.toEvent).app := by
  have hstep := step_posMsg s m hm
  rw [hstep, halt]
  constructor
  · exact storeLookup_mapSet _ _ _
  · have hm2 := List.mem_map_of_mem Prod.snd
      (mapSet_mem (.num m.norad)
        ⟨.str m.name, .num m.norad, .num m.lat, .num m.lon, .nan, s.now + 1⟩
        s.app.satellites)
    simpa [viewList] using hm2

/-- Witness for C10 with altitude string `"unknown"`. -/
theorem c10_unparseable_alt_witness :
    storeLookup (.num 33591)
        (step (run true [])
          (PosMsg.toEvent ⟨"NOAA-19", 33591, 10, 20, .str "unknown"⟩)).app.satellites
      = some ⟨.str "NOAA-19", .num 33591, .num 10, .num 20, .nan, (run true []).now + 1⟩
    ∧ (⟨.str "NOAA-19", .num 33591, .num 10, .num 20, .nan,
        (run true []).now + 1⟩ : SatelliteData)
        ∈ viewList (step (run true [])
            (PosMsg.toEvent ⟨"NOAA-19", 33591, 10, 20, .str "unknown"⟩)).app :=
  c10_unparseable_alt_kept (run true []) ⟨"NOAA-19", 33591, 10, 20, .str "unknown"⟩
    (by decide) (by decide)
